import Mathlib

/-!
Shallow embedding of the run-lifecycle coordinator of a Streamlit chat
front-end (source files `utils.py` and `app.py`).

The remote OpenAI API is modelled as an oracle: each remote call is a field
of a `Remote`-style structure holding either a result (`Except.ok`) or a
raised exception (`Except.error e`, where `e` is the rendered exception
text).  Wall-clock time in the polling loop of `send_message` is idealised:
only the `time.sleep(0.5)` calls advance the clock, so after `n` re-polls
the elapsed time is `n` half-seconds; the 30-second deadline is the
constant `TIMEOUT_HALVES = 60` in half-second units, and the source guard
`time.time() - start_time > timeout` becomes `TIMEOUT_HALVES < n`.

`st.error` calls are collected in an `errors` list, `st.stop()` is modelled
as a `halted` outcome (the script stops before any further statement), and
every remote API request actually issued is recorded in a `calls` trace so
that "no remote call was attempted" is a provable statement.
-/

namespace AIChat

/-- A locally displayed chat message: the dictionaries
`\x7b"role": ..., "content": ...\x7d` built by `send_message` and
`handle_assistant_error`. -/
structure Msg where
  role : String
  content : String
deriving DecidableEq, Repr

/-- A raw remote message as returned by `client.beta.threads.messages.list`:
a role and the list of the text values of its content blocks
(`msg.content[i].text.value`). -/
structure RawMessage where
  role : String
  content : List String
deriving DecidableEq, Repr

/-- The per-message conversion done in the loop of `send_message`
(utils.py lines 104-108): role is copied, content is
`msg.content[0].text.value if msg.content else ""`. -/
def projectMsg (m : RawMessage) : Msg :=
  ⟨m.role, match m.content with
           | [] => ""
           | t :: _ => t⟩

/-- The whole message-conversion loop of `send_message`
(utils.py lines 103-110): build `message_list` by converting each raw
message in order. -/
def project (msgs : List RawMessage) : List Msg :=
  msgs.map projectMsg

/-- The process environment (`os.getenv`): `none` when a variable is unset. -/
def Env : Type := String → Option String

/-- Python truthiness test `if not value` for an optional string:
true when the variable is unset or set to the empty string. -/
def falsy : Option String → Bool
  | none => true
  | some s => s == ""

/-- The guard of `init_openai_client` (utils.py lines 13-16):
`api_key = os.getenv("OPENAI_API_KEY"); if not api_key: ... st.stop()`. -/
def apiKeyMissing (env : Env) : Bool :=
  falsy (env "OPENAI_API_KEY")

/-- One remote API request actually issued. -/
inductive RemoteCall where
  | createThread
  | retrieveAssistant (id : String)
  | createMessage (thread_id role content : String)
  | createRun (thread_id : String) (assistant_id : Option String)
  | retrieveRun (n : Nat)
  | listMessages (thread_id : String)
deriving DecidableEq, Repr

/-- Error text of `init_openai_client` (utils.py line 15). -/
def apiKeyErrorText : String :=
  "OpenAI API key not found. Please check your .env file."

/-- Error text of `get_assistant_details` when the selector has no
configured identifier (utils.py line 32). -/
def assistantIdErrorText (sel : String) : String :=
  "Assistant ID not found for " ++ sel ++ ". Please check your .env file."

/-- Error text of the exception handler of `get_assistant_details`
(utils.py line 43). -/
def gadErrorText (e : String) : String :=
  "Error getting assistant details: " ++ e

/-- Error text of the exception handler of `create_thread`
(utils.py line 53). -/
def createThreadErrorText (e : String) : String :=
  "Error creating thread: " ++ e

/-- Error text of the timeout branch of `send_message` (utils.py line 80). -/
def timeoutErrorText : String :=
  "Request timed out. Please try again."

/-- Error text of the terminal-failure branch of `send_message`
(utils.py line 91). -/
def runFailedErrorText (s : String) : String :=
  "Run failed with status: " ++ s

/-- Error text of the unknown-status branch of `send_message`
(utils.py line 96). -/
def unexpectedStatusErrorText (s : String) : String :=
  "Unexpected run status: " ++ s

/-- Error text of the exception handler of `send_message`
(utils.py line 113). -/
def chatErrorText (e : String) : String :=
  "Error in chat interaction: " ++ e

/-- The assistant metadata dictionary built by `get_assistant_details`
(utils.py lines 37-41). -/
structure AssistantDetails where
  name : String
  model : String
  tools : List String
deriving DecidableEq, Repr

/-- Oracle for the remote call made by `get_assistant_details`:
`client.beta.assistants.retrieve(assistant_id_value)`. -/
structure AssistantRemote where
  retrieve : String → Except String AssistantDetails

/-- Observable output of `get_assistant_details`: the returned value,
whether `st.stop()` halted the script, the resolved assistant id
(`assistant_id_value = os.getenv(assistant_id)`), the `st.error` texts
displayed, and the remote calls issued. -/
structure GadOut where
  result : Option AssistantDetails
  halted : Bool
  resolvedId : Option String
  errors : List String
  calls : List RemoteCall
deriving DecidableEq, Repr

/-- Embedding of `get_assistant_details` (utils.py lines 19-44):
initialise the client (halting when the credential is missing), look the
selector up in the environment, fail with a visible error and `None` when
it is unset or empty, otherwise retrieve the assistant remotely, catching
any exception into a visible error and `None`. -/
def get_assistant_details (env : Env) (ar : AssistantRemote)
    (assistant_id : String) : GadOut :=
  if apiKeyMissing env then
    ⟨none, true, none, [apiKeyErrorText], []⟩
  else
    match falsy (env assistant_id), env assistant_id with
    | true, v => ⟨none, false, v, [assistantIdErrorText assistant_id], []⟩
    | false, v =>
      match ar.retrieve (v.getD "") with
      | .error e =>
        ⟨none, false, v, [gadErrorText e], [.retrieveAssistant (v.getD "")]⟩
      | .ok d =>
        ⟨some d, false, v, [], [.retrieveAssistant (v.getD "")]⟩

/-- Oracle for the remote call made by `create_thread`:
`client.beta.threads.create()`, returning the new thread id. -/
structure ThreadRemote where
  create : Except String String

/-- Observable output of `create_thread`. -/
structure CtOut where
  result : String
  halted : Bool
  errors : List String
  calls : List RemoteCall
deriving DecidableEq, Repr

/-- Embedding of `create_thread` (utils.py lines 46-54): initialise the
client (halting when the credential is missing), create a remote thread and
return its id, catching any exception into a visible error and the empty
string. -/
def create_thread (env : Env) (tr : ThreadRemote) : CtOut :=
  if apiKeyMissing env then
    ⟨"", true, [apiKeyErrorText], []⟩
  else
    match tr.create with
    | .error e => ⟨"", false, [createThreadErrorText e], [.createThread]⟩
    | .ok i => ⟨i, false, [], [.createThread]⟩

/-- The 30-second polling deadline of `send_message` (utils.py line 76),
measured in half-second sleep units: `30 s / 0.5 s = 60`. -/
def TIMEOUT_HALVES : Nat := 60

/-- Result of the polling loop of `send_message`; each constructor records
the poll index `n` at which the loop stopped (equivalently, the number of
half-seconds slept before stopping). -/
inductive PollResult where
  | completed (n : Nat)
  | runFailed (status : String) (n : Nat)
  | unexpectedStatus (status : String) (n : Nat)
  | raised (e : String) (n : Nat)
  | timedOut (n : Nat)
deriving DecidableEq, Repr

/-- One iteration body of the polling loop (utils.py lines 83-97), after
the timeout guard: retrieve the run (first argument: its outcome), then the
branch ladder on `run.status` — `completed` breaks out, `failed`,
`cancelled`, `expired` fail the run, `queued` and `in_progress` sleep and
re-poll (`none`), anything else is an unexpected status.  A raised
exception propagates to the handler of `send_message`. -/
def pollStep : Except String String → Nat → Option PollResult
  | .error e, n => some (.raised e n)
  | .ok s, n =>
    if s = "completed" then some (.completed n)
    else if s = "failed" ∨ s = "cancelled" ∨ s = "expired" then
      some (.runFailed s n)
    else if s = "queued" ∨ s = "in_progress" then none
    else some (.unexpectedStatus s n)

/-- The polling loop of `send_message` (utils.py lines 78-97) started at
poll index `n`: the timeout guard `time.time() - start_time > timeout`
(idealised as `TIMEOUT_HALVES < n`) is checked at the top of each
iteration; otherwise the run is retrieved and `pollStep` decides whether to
stop or to sleep 0.5 s and re-poll at index `n + 1`. -/
def pollLoopAux (retrieve : Nat → Except String String) (n : Nat) :
    PollResult :=
  if TIMEOUT_HALVES < n then .timedOut n
  else
    match pollStep (retrieve n) n with
    | some r => r
    | none => pollLoopAux retrieve (n + 1)
termination_by TIMEOUT_HALVES + 1 - n
decreasing_by simp only [TIMEOUT_HALVES] at *; omega

/-- The polling loop of `send_message`, started at elapsed time 0. -/
def pollLoop (retrieve : Nat → Except String String) : PollResult :=
  pollLoopAux retrieve 0

/-- Number of `runs.retrieve` calls the loop issued before stopping. -/
def PollResult.polls : PollResult → Nat
  | .completed n => n + 1
  | .runFailed _ n => n + 1
  | .unexpectedStatus _ n => n + 1
  | .raised _ n => n + 1
  | .timedOut n => n

/-- Oracle for the remote calls made by `send_message`: appending the user
message, creating the run, retrieving the run status at each poll index,
and listing the thread messages. -/
structure Remote where
  createMessage : Except String Unit
  createRun : Except String Unit
  retrieve : Nat → Except String String
  listMessages : Except String (List RawMessage)

/-- How a `send_message` invocation ended, seen with full information
(the caller only sees the returned list, see `SendOut.result`). -/
inductive SendOutcome where
  | success (transcript : List Msg)
  | halted
  | runFailed (status : String)
  | timedOut (polls : Nat)
  | unexpectedStatus (status : String)
  | remoteError (e : String)
deriving DecidableEq, Repr

/-- Whether the invocation returned a transcript. -/
def SendOutcome.isSuccess : SendOutcome → Bool
  | .success _ => true
  | _ => false

/-- Observable output of `send_message`: the outcome, the list actually
returned to the caller, the `st.error` texts displayed, and the remote
calls issued. -/
structure SendOut where
  outcome : SendOutcome
  result : List Msg
  errors : List String
  calls : List RemoteCall
deriving Repr

/-- The `runs.retrieve` calls issued by a finished polling loop. -/
def pollCalls (r : PollResult) : List RemoteCall :=
  (List.range r.polls).map .retrieveRun

/-- Embedding of `send_message` (utils.py lines 56-114): initialise the
client (halting when the credential is missing), append the user message
to the thread, create a run bound to
`os.getenv(st.session_state.selected_assistant)`, poll the run to a
terminal state under the 30-second deadline, and on completion list the
thread messages and return their projection.  Every failure branch —
timeout, terminal failure, unexpected status, or a raised exception caught
by the `except` handler — displays an `st.error` text and returns the
empty list. -/
def send_message (env : Env) (remote : Remote)
    (selected_assistant thread_id user_message : String) : SendOut :=
  if apiKeyMissing env then
    ⟨.halted, [], [apiKeyErrorText], []⟩
  else
    match remote.createMessage with
    | .error e =>
      ⟨.remoteError e, [], [chatErrorText e],
        [.createMessage thread_id "user" user_message]⟩
    | .ok _ =>
      match remote.createRun with
      | .error e =>
        ⟨.remoteError e, [], [chatErrorText e],
          [.createMessage thread_id "user" user_message,
           .createRun thread_id (env selected_assistant)]⟩
      | .ok _ =>
        match pollLoop remote.retrieve with
        | .completed n =>
          match remote.listMessages with
          | .error e =>
            ⟨.remoteError e, [], [chatErrorText e],
              [.createMessage thread_id "user" user_message,
               .createRun thread_id (env selected_assistant)] ++
                pollCalls (.completed n) ++ [.listMessages thread_id]⟩
          | .ok raw =>
            ⟨.success (project raw), project raw, [],
              [.createMessage thread_id "user" user_message,
               .createRun thread_id (env selected_assistant)] ++
                pollCalls (.completed n) ++ [.listMessages thread_id]⟩
        | .runFailed s n =>
          ⟨.runFailed s, [], [runFailedErrorText s],
            [.createMessage thread_id "user" user_message,
             .createRun thread_id (env selected_assistant)] ++
              pollCalls (.runFailed s n)⟩
        | .unexpectedStatus s n =>
          ⟨.unexpectedStatus s, [], [unexpectedStatusErrorText s],
            [.createMessage thread_id "user" user_message,
             .createRun thread_id (env selected_assistant)] ++
              pollCalls (.unexpectedStatus s n)⟩
        | .raised e n =>
          ⟨.remoteError e, [], [chatErrorText e],
            [.createMessage thread_id "user" user_message,
             .createRun thread_id (env selected_assistant)] ++
              pollCalls (.raised e n)⟩
        | .timedOut n =>
          ⟨.timedOut n, [], [timeoutErrorText],
            [.createMessage thread_id "user" user_message,
             .createRun thread_id (env selected_assistant)] ++
              pollCalls (.timedOut n)⟩

/-- The fixed apology text of `handle_assistant_error` (app.py line 119). -/
def fallback_content : String :=
  "I\x27m sorry, I encountered an error while processing your request. This might happen when retrieving information from my knowledge base. Could you try rephrasing your question or asking something else?"

/-- Embedding of `handle_assistant_error` (app.py lines 98-123): append the
user message and then the fixed apology assistant message to the displayed
message list and return the updated list. -/
def handle_assistant_error (messages : List Msg) (user_message : String) :
    List Msg :=
  (messages ++ [⟨"user", user_message⟩]) ++ [⟨"assistant", fallback_content⟩]

/-- Embedding of the dispatch in `main` after `send_message` returns
(app.py lines 188-204): a non-empty result replaces the displayed
transcript; an empty result (and likewise a raised exception, caught by the
surrounding handler) routes to `handle_assistant_error`. -/
def main_after_send (messages : List Msg) (user_message : String)
    (sent : List Msg) : List Msg :=
  if sent.isEmpty then handle_assistant_error messages user_message else sent

/-- A concrete environment with the credential and one assistant configured,
used to instantiate the theorems below. -/
def envW : Env := fun v =>
  if v = "OPENAI_API_KEY" then some "sk-test"
  else if v = "ASSISTANT_ID" then some "asst-1"
  else none

/-- A concrete environment with nothing configured. -/
def envEmpty : Env := fun _ => none

/-- A concrete remote for Scenario A: the run is `in_progress` on the first
two polls and `completed` on the third, and the thread then holds the
two-message transcript user:"Hello", assistant:"Hi there!". -/
def remoteA : Remote :=
  ⟨.ok (), .ok (),
   fun k => .ok (if k < 2 then "in_progress" else "completed"),
   .ok [⟨"user", ["Hello"]⟩, ⟨"assistant", ["Hi there!"]⟩]⟩

/-- A concrete remote whose run is reported `failed` at the first poll. -/
def remoteFailed : Remote :=
  ⟨.ok (), .ok (), fun _ => .ok "failed", .ok []⟩

/-- A concrete remote whose run is reported `cancelled` at the first poll. -/
def remoteCancelled : Remote :=
  ⟨.ok (), .ok (), fun _ => .ok "cancelled", .ok []⟩

/-- A concrete assistant-directory remote that always errors. -/
def arDown : AssistantRemote := ⟨fun _ => .error "connection refused"⟩

/-- A concrete assistant-directory remote that always succeeds. -/
def arUp : AssistantRemote := ⟨fun _ => .ok ⟨"Legal AI", "gpt-4o", ["file_search"]⟩⟩

/-- A concrete thread remote that errors. -/
def trDown : ThreadRemote := ⟨.error "connection refused"⟩

/-- A concrete thread remote that returns thread id "th-1". -/
def trUp : ThreadRemote := ⟨.ok "th-1"⟩

/-! Helper lemmas about the polling loop and `send_message`. -/

/-- Stopping the loop: when the deadline has not yet passed and the current
poll decides a result, the loop returns that result. -/
lemma pollLoopAux_exit (retrieve : Nat → Except String String) (n : Nat)
    (hn : n ≤ TIMEOUT_HALVES) (r : PollResult)
    (hs : pollStep (retrieve n) n = some r) :
    pollLoopAux retrieve n = r := by
  rw [pollLoopAux, hs]
  simp [Nat.not_lt.mpr hn]

/-- Past the deadline, the loop times out at once. -/
lemma pollLoopAux_timeout (retrieve : Nat → Except String String) (n : Nat)
    (hn : TIMEOUT_HALVES < n) :
    pollLoopAux retrieve n = .timedOut n := by
  rw [pollLoopAux]
  simp [hn]

/-- Skipping non-terminal polls: when every poll before `n` sleeps and
re-polls, the loop started at 0 agrees with the loop started at `n`. -/
lemma pollLoopAux_skip (retrieve : Nat → Except String String) :
    ∀ n : Nat, n ≤ TIMEOUT_HALVES + 1 →
      (∀ i, i < n → pollStep (retrieve i) i = none) →
      pollLoopAux retrieve 0 = pollLoopAux retrieve n := by
  intro n
  induction n with
  | zero => intro _ _; rfl
  | succ m ih =>
    intro hm h
    have h1 : pollLoopAux retrieve 0 = pollLoopAux retrieve m :=
      ih (Nat.le_of_succ_le hm) (fun i hi => h i (Nat.lt_succ_of_lt hi))
    rw [h1, pollLoopAux]
    have hml : ¬ TIMEOUT_HALVES < m := by omega
    simp [hml, h m (Nat.lt_succ_self m)]

/-- A single poll never produces the timeout result: timeouts come only
from the deadline guard. -/
lemma pollStep_ne_timedOut (e : Except String String) (m k : Nat) :
    pollStep e m ≠ some (.timedOut k) := by
  cases e with
  | error e => simp [pollStep]
  | ok s =>
    simp only [pollStep]
    split
    · simp
    · split
      · simp
      · split <;> simp

/-- The list `send_message` returns to the caller is the transcript on
success and the empty list in every other branch of the source. -/
lemma send_message_result_eq (env : Env) (remote : Remote)
    (sel t u : String) :
    (send_message env remote sel t u).result =
      (match (send_message env remote sel t u).outcome with
       | .success l => l
       | _ => []) := by
  unfold send_message
  split
  · rfl
  · split
    · rfl
    · split
      · rfl
      · split
        · split <;> rfl
        · rfl
        · rfl
        · rfl
        · rfl

/-- Whenever `send_message` does not succeed, the list it returns to the
caller is empty: every error branch of the source returns `[]`. -/
lemma send_message_result_empty (env : Env) (remote : Remote)
    (sel t u : String)
    (h : (send_message env remote sel t u).outcome.isSuccess = false) :
    (send_message env remote sel t u).result = [] := by
  rw [send_message_result_eq]
  rcases hx : (send_message env remote sel t u).outcome <;> simp
  rw [hx] at h
  simp [SendOutcome.isSuccess] at h

/-! The claims. -/

/-- Claim C1: for every run that reaches terminal status `completed`,
`send_message` returns the projection of the remote transcript; when that
transcript ends with the submitted user message followed by an assistant
message whose first text block is non-empty, the returned transcript's last
two entries are, in order, the submitted user message and that non-empty
assistant reply. -/
theorem send_message_completed_last_two (env : Env) (remote : Remote)
    (sel t u rt : String) (ub ab : List String) (pre : List RawMessage)
    (m : Nat)
    (hkey : apiKeyMissing env = false)
    (hcm : remote.createMessage = .ok ())
    (hcr : remote.createRun = .ok ())
    (hpoll : pollLoop remote.retrieve = .completed m)
    (hlist : remote.listMessages =
      .ok (pre ++ [⟨"user", u :: ub⟩, ⟨"assistant", rt :: ab⟩]))
    (hrt : rt ≠ "") :
    (send_message env remote sel t u).result =
      project pre ++ [⟨"user", u⟩, ⟨"assistant", rt⟩] ∧
    (send_message env remote sel t u).outcome =
      .success (project pre ++ [⟨"user", u⟩, ⟨"assistant", rt⟩]) ∧
    rt ≠ "" := by
  refine ⟨?_, ?_, hrt⟩ <;>
    simp [send_message, hkey, hcm, hcr, hpoll, hlist, project, projectMsg]

/-- Witness for C1, Scenario A: with the credential configured, a run that
is non-terminal for two polls and `completed` on the third, and remote
transcript user:"Hello", assistant:"Hi there!", `send_message` returns
exactly that 2-element transcript in that order. -/
theorem send_message_completed_last_two_witness :
    (send_message envW remoteA "ASSISTANT_ID" "th-1" "Hello").result =
      [⟨"user", "Hello"⟩, ⟨"assistant", "Hi there!"⟩] := by
  have h := send_message_completed_last_two envW remoteA "ASSISTANT_ID"
    "th-1" "Hello" "Hi there!" [] [] [] 2 rfl rfl rfl
    (by simp [pollLoop, pollLoopAux, pollStep, TIMEOUT_HALVES, remoteA])
    rfl (by decide)
  simpa [project] using h.1

/-- Claim C2: whenever the polled status first leaves the non-terminal set
at a status in the set containing failed, cancelled and expired (within the
deadline), `send_message` ends with the `runFailed` outcome carrying that
specific status, displays the corresponding error text, and returns the
empty list to its caller — it raises nothing. -/
theorem send_message_run_failed (env : Env) (remote : Remote)
    (sel t u s : String) (n : Nat)
    (hkey : apiKeyMissing env = false)
    (hcm : remote.createMessage = .ok ())
    (hcr : remote.createRun = .ok ())
    (hn : n ≤ TIMEOUT_HALVES)
    (hpre : ∀ i, i < n → pollStep (remote.retrieve i) i = none)
    (hs : remote.retrieve n = .ok s)
    (hfail : s = "failed" ∨ s = "cancelled" ∨ s = "expired") :
    (send_message env remote sel t u).outcome = .runFailed s ∧
    (send_message env remote sel t u).result = [] ∧
    (send_message env remote sel t u).errors = [runFailedErrorText s] := by
  have hstep : pollStep (remote.retrieve n) n = some (.runFailed s n) := by
    rw [hs]
    rcases hfail with rfl | rfl | rfl <;> rfl
  have hloop : pollLoop remote.retrieve = .runFailed s n := by
    rw [pollLoop, pollLoopAux_skip remote.retrieve n (by omega) hpre,
      pollLoopAux_exit remote.retrieve n hn _ hstep]
  refine ⟨?_, ?_, ?_⟩ <;> simp [send_message, hkey, hcm, hcr, hloop]

/-- Witness for C2: a run reported `failed` at the first poll makes
`send_message` end with outcome `runFailed "failed"` and return `[]`. -/
theorem send_message_run_failed_witness :
    (send_message envW remoteFailed "ASSISTANT_ID" "th-1" "Hi").outcome =
      .runFailed "failed" ∧
    (send_message envW remoteFailed "ASSISTANT_ID" "th-1" "Hi").result =
      [] := by
  have h := send_message_run_failed envW remoteFailed "ASSISTANT_ID" "th-1"
    "Hi" "failed" 0 rfl rfl rfl (by decide)
    (fun i hi => absurd hi (Nat.not_lt_zero i)) rfl (Or.inl rfl)
  exact ⟨h.1, h.2.1⟩

/-- Claim C3: for every sequence of poll outcomes, the polling loop of
`send_message` terminates: either some poll at an index within the deadline
decides the result (terminal, unknown or raised status, with all earlier
polls non-terminal), or every poll up to the deadline is non-terminal and
the loop times out at index `TIMEOUT_HALVES + 1 = 61` — that is, after 61
sleeps of 0.5 s, 30.5 s of idealised wall-clock time, the first top-of-loop
check strictly past the 30 s deadline; moreover a timeout can happen at no
other index, so it occurs neither before the deadline nor unboundedly
after it. -/
theorem send_message_polling_terminates
    (retrieve : Nat → Except String String) :
    ((∃ n r, n ≤ TIMEOUT_HALVES ∧
        (∀ i, i < n → pollStep (retrieve i) i = none) ∧
        pollStep (retrieve n) n = some r ∧ pollLoop retrieve = r)
      ∨ ((∀ i, i ≤ TIMEOUT_HALVES → pollStep (retrieve i) i = none) ∧
          pollLoop retrieve = .timedOut (TIMEOUT_HALVES + 1)))
    ∧ (∀ n, pollLoop retrieve = .timedOut n → n = TIMEOUT_HALVES + 1) := by
  classical
  have main : (∃ n r, n ≤ TIMEOUT_HALVES ∧
      (∀ i, i < n → pollStep (retrieve i) i = none) ∧
      pollStep (retrieve n) n = some r ∧ pollLoop retrieve = r)
      ∨ ((∀ i, i ≤ TIMEOUT_HALVES → pollStep (retrieve i) i = none) ∧
          pollLoop retrieve = .timedOut (TIMEOUT_HALVES + 1)) := by
    by_cases hall : ∀ i, i ≤ TIMEOUT_HALVES → pollStep (retrieve i) i = none
    · right
      refine ⟨hall, ?_⟩
      have hs := pollLoopAux_skip retrieve (TIMEOUT_HALVES + 1) le_rfl
        (fun i hi => hall i (by omega))
      rw [pollLoop, hs, pollLoopAux_timeout retrieve _ (by omega)]
    · left
      push_neg at hall
      obtain ⟨i, hi, hne⟩ := hall
      have hex : ∃ j, pollStep (retrieve j) j ≠ none := ⟨i, hne⟩
      have hnP : pollStep (retrieve (Nat.find hex)) (Nat.find hex) ≠ none :=
        Nat.find_spec hex
      have hni : Nat.find hex ≤ i := Nat.find_min' hex hne
      have hn60 : Nat.find hex ≤ TIMEOUT_HALVES := le_trans hni hi
      have hmin : ∀ m, m < Nat.find hex →
          pollStep (retrieve m) m = none := by
        intro m hm
        have := Nat.find_min hex hm
        simpa using this
      obtain ⟨r, hr⟩ := Option.ne_none_iff_exists'.mp hnP
      refine ⟨Nat.find hex, r, hn60, hmin, hr, ?_⟩
      have hs := pollLoopAux_skip retrieve (Nat.find hex) (by omega) hmin
      rw [pollLoop, hs, pollLoopAux_exit retrieve (Nat.find hex) hn60 r hr]
  refine ⟨main, ?_⟩
  intro n hn
  rcases main with ⟨m, r, _, _, hstep, hloop⟩ | ⟨_, hloop⟩
  · rw [hloop] at hn
    subst hn
    exact absurd hstep (pollStep_ne_timedOut _ _ _)
  · rw [hloop] at hn
    injection hn.symm

/-- Claim C4: the transcript projection maps each raw message to its role
and the value of its first text content block — the empty string when the
message has no content blocks — preserving the order and the length of the
input list, and projecting the empty list yields the empty transcript. -/
theorem project_correct :
    project [] = [] ∧
    (∀ msgs : List RawMessage, (project msgs).length = msgs.length) ∧
    (∀ (msgs : List RawMessage) (i : Nat),
      (project msgs)[i]? = Option.map projectMsg msgs[i]?) ∧
    (∀ r : String, projectMsg ⟨r, []⟩ = ⟨r, ""⟩) ∧
    (∀ (r tv : String) (ts : List String),
      projectMsg ⟨r, tv :: ts⟩ = ⟨r, tv⟩) := by
  refine ⟨rfl, ?_, ?_, ?_, ?_⟩ <;> intros <;>
    simp [project, projectMsg]

/-- Claim C5: when `send_message` ends with the `runFailed` or `timedOut`
outcome — which the caller in `main` observes as an empty returned list —
the displayed transcript becomes the previous transcript with exactly two
entries appended: the original user message with role user, then the fixed
apology assistant message; every previously displayed entry is left in
place unchanged. -/
theorem failure_appends_user_and_fallback (env : Env) (remote : Remote)
    (sel t u s : String) (n : Nat) (old : List Msg)
    (h : (send_message env remote sel t u).outcome = .runFailed s ∨
         (send_message env remote sel t u).outcome = .timedOut n) :
    (send_message env remote sel t u).result = [] ∧
    main_after_send old u ((send_message env remote sel t u).result) =
      old ++ [⟨"user", u⟩, ⟨"assistant", fallback_content⟩] := by
  have hempty : (send_message env remote sel t u).result = [] := by
    apply send_message_result_empty
    rcases h with h | h <;> rw [h] <;> rfl
  refine ⟨hempty, ?_⟩
  rw [hempty]
  simp [main_after_send, handle_assistant_error]

/-- Witness for C5: after a run reported `cancelled` at the first poll, a
previously displayed two-entry transcript gains exactly the user message
and the apology, in that order, with the old entries unchanged. -/
theorem failure_appends_user_and_fallback_witness :
    main_after_send [⟨"user", "a"⟩, ⟨"assistant", "b"⟩] "Hi"
        ((send_message envW remoteCancelled "ASSISTANT_ID" "th-1"
          "Hi").result) =
      [⟨"user", "a"⟩, ⟨"assistant", "b"⟩, ⟨"user", "Hi"⟩,
       ⟨"assistant", fallback_content⟩] := by
  have h := failure_appends_user_and_fallback envW remoteCancelled
    "ASSISTANT_ID" "th-1" "Hi" "cancelled" 0
    [⟨"user", "a"⟩, ⟨"assistant", "b"⟩]
    (Or.inl (by simp [send_message, pollLoop, pollLoopAux, pollStep,
      TIMEOUT_HALVES, remoteCancelled, envW, apiKeyMissing, falsy]))
  simpa using h.2

/-- Claim C6: if the remote thread-creation call errors, `create_thread`
displays the corresponding error text and returns the empty sentinel handle
instead of raising; on success it returns the remote thread's id. -/
theorem create_thread_spec (env : Env) (tr : ThreadRemote)
    (hkey : apiKeyMissing env = false) :
    (∀ e, tr.create = .error e →
      (create_thread env tr).result = "" ∧
      (create_thread env tr).halted = false ∧
      (create_thread env tr).errors = [createThreadErrorText e]) ∧
    (∀ i, tr.create = .ok i →
      (create_thread env tr).result = i ∧
      (create_thread env tr).errors = []) := by
  constructor
  · intro e he
    refine ⟨?_, ?_, ?_⟩ <;> simp [create_thread, hkey, he]
  · intro i hi
    constructor <;> simp [create_thread, hkey, hi]

/-- Witness for C6: a failing remote yields the sentinel empty handle with
the error text displayed, and a working remote yields the new thread id. -/
theorem create_thread_spec_witness :
    ((create_thread envW trDown).result = "" ∧
      (create_thread envW trDown).halted = false ∧
      (create_thread envW trDown).errors =
        [createThreadErrorText "connection refused"]) ∧
    (create_thread envW trUp).result = "th-1" := by
  exact ⟨(create_thread_spec envW trDown rfl).1 "connection refused" rfl,
    ((create_thread_spec envW trUp rfl).2 "th-1" rfl).1⟩

/-- Claim C7: for every selector whose configured value is unset or empty
(with the credential itself present), `get_assistant_details` displays the
configuration error text and returns `None` without crashing, and issues no
remote call — in particular no assistant retrieval. -/
theorem get_assistant_details_config_missing (env : Env)
    (ar : AssistantRemote) (sel : String)
    (hkey : apiKeyMissing env = false)
    (hsel : falsy (env sel) = true) :
    (get_assistant_details env ar sel).result = none ∧
    (get_assistant_details env ar sel).halted = false ∧
    (get_assistant_details env ar sel).errors = [assistantIdErrorText sel] ∧
    (get_assistant_details env ar sel).calls = [] := by
  refine ⟨?_, ?_, ?_, ?_⟩ <;> simp [get_assistant_details, hkey, hsel]

/-- Witness for C7, Scenario D: the selector mapped to the unset variable
ASSISTANT_ID2 resolves to a visible configuration error, a `None` result,
and an empty remote-call trace. -/
theorem get_assistant_details_config_missing_witness :
    (get_assistant_details envW arUp "ASSISTANT_ID2").result = none ∧
    (get_assistant_details envW arUp "ASSISTANT_ID2").halted = false ∧
    (get_assistant_details envW arUp "ASSISTANT_ID2").errors =
      [assistantIdErrorText "ASSISTANT_ID2"] ∧
    (get_assistant_details envW arUp "ASSISTANT_ID2").calls = [] :=
  get_assistant_details_config_missing envW arUp "ASSISTANT_ID2" rfl rfl

/-- Claim C8: when the credential OPENAI_API_KEY is unset or empty, each of
`get_assistant_details`, `create_thread` and `send_message` halts in
`init_openai_client` before issuing any remote call: each call trace is
empty. -/
theorem missing_key_halts_before_remote_calls (env : Env)
    (ar : AssistantRemote) (tr : ThreadRemote) (remote : Remote)
    (aid sel t u : String)
    (hkey : apiKeyMissing env = true) :
    ((get_assistant_details env ar aid).calls = [] ∧
      (get_assistant_details env ar aid).halted = true) ∧
    ((create_thread env tr).calls = [] ∧
      (create_thread env tr).halted = true) ∧
    ((send_message env remote sel t u).calls = [] ∧
      (send_message env remote sel t u).outcome = .halted) := by
  refine ⟨⟨?_, ?_⟩, ⟨?_, ?_⟩, ⟨?_, ?_⟩⟩ <;>
    simp [get_assistant_details, create_thread, send_message, hkey]

/-- Witness for C8: with an empty environment, all three operations issue
no remote call and halt. -/
theorem missing_key_halts_before_remote_calls_witness :
    ((get_assistant_details envEmpty arUp "ASSISTANT_ID").calls = [] ∧
      (get_assistant_details envEmpty arUp "ASSISTANT_ID").halted = true) ∧
    ((create_thread envEmpty trUp).calls = [] ∧
      (create_thread envEmpty trUp).halted = true) ∧
    ((send_message envEmpty remoteA "ASSISTANT_ID" "th-1" "Hi").calls = []
      ∧ (send_message envEmpty remoteA "ASSISTANT_ID" "th-1" "Hi").outcome
        = .halted) :=
  missing_key_halts_before_remote_calls envEmpty arUp trUp remoteA
    "ASSISTANT_ID" "ASSISTANT_ID" "th-1" "Hi" rfl

/-- Claim C9: the assistant resolution is a deterministic function of the
configuration environment: two calls of `get_assistant_details` with the
same selector, between which the environment entries it reads (the
credential and the selector) are unchanged, resolve the same AssistantId. -/
theorem resolve_assistant_idempotent (env1 env2 : Env)
    (ar : AssistantRemote) (sel : String)
    (hkey : env1 "OPENAI_API_KEY" = env2 "OPENAI_API_KEY")
    (hsel : env1 sel = env2 sel) :
    (get_assistant_details env1 ar sel).resolvedId =
      (get_assistant_details env2 ar sel).resolvedId := by
  unfold get_assistant_details apiKeyMissing
  rw [hkey, hsel]

/-- Witness for C9: two calls against the same concrete environment resolve
the same AssistantId. -/
theorem resolve_assistant_idempotent_witness :
    (get_assistant_details envW arUp "ASSISTANT_ID").resolvedId =
      (get_assistant_details envW arUp "ASSISTANT_ID").resolvedId :=
  resolve_assistant_idempotent envW envW arUp "ASSISTANT_ID" rfl rfl

/-- Claim C10: with the credential present, `send_message` returns a plain
list for every remote behavior, and in every non-success case — timeout,
terminal failure, unknown status, or a raised remote exception — that list
is empty, so any two failing invocations are indistinguishable by their
return value; a successful run over a thread whose remote message list is
empty returns the same empty list. -/
theorem send_message_errors_indistinguishable (env : Env) (r1 r2 : Remote)
    (sel t u : String)
    (hkey : apiKeyMissing env = false)
    (h1 : (send_message env r1 sel t u).outcome.isSuccess = false)
    (h2 : (send_message env r2 sel t u).outcome.isSuccess = false) :
    (send_message env r1 sel t u).result = [] ∧
    (send_message env r1 sel t u).result =
      (send_message env r2 sel t u).result ∧
    (∀ (r3 : Remote) (m : Nat),
      r3.createMessage = .ok () → r3.createRun = .ok () →
      pollLoop r3.retrieve = .completed m → r3.listMessages = .ok [] →
      (send_message env r3 sel t u).outcome.isSuccess = true ∧
      (send_message env r3 sel t u).result = []) := by
  have e1 := send_message_result_empty env r1 sel t u h1
  have e2 := send_message_result_empty env r2 sel t u h2
  refine ⟨e1, by rw [e1, e2], ?_⟩
  intro r3 m hcm hcr hpoll hlist
  constructor <;>
    simp [send_message, hkey, hcm, hcr, hpoll, hlist, project,
      SendOutcome.isSuccess]

/-- Witness for C10: a failed run and a cancelled run both return the empty
list, and their returned values are equal. -/
theorem send_message_errors_indistinguishable_witness :
    (send_message envW remoteFailed "ASSISTANT_ID" "th-1" "Hi").result = []
    ∧ (send_message envW remoteFailed "ASSISTANT_ID" "th-1" "Hi").result =
      (send_message envW remoteCancelled "ASSISTANT_ID" "th-1"
        "Hi").result := by
  have h := send_message_errors_indistinguishable envW remoteFailed
    remoteCancelled "ASSISTANT_ID" "th-1" "Hi" rfl
    (by simp [send_message, pollLoop, pollLoopAux, pollStep,
      TIMEOUT_HALVES, remoteFailed, envW, apiKeyMissing, falsy,
      SendOutcome.isSuccess])
    (by simp [send_message, pollLoop, pollLoopAux, pollStep,
      TIMEOUT_HALVES, remoteCancelled, envW, apiKeyMissing, falsy,
      SendOutcome.isSuccess])
  exact ⟨h.1, h.2.1⟩

end AIChat
